import Mathlib

/-!
Shallow embedding of `node/src/chain_spec.rs` (moonbeam chain specification).

The file derives deterministic test identities from label strings and
assembles the genesis state of two preset chains ("development" and
"local_testnet").  Cryptographic schemes (sr25519, Aura, Grandpa key types)
live outside this repository, so they are modelled as abstract
phrase-to-public-key functions passed in as parameters; everything this
repository computes around them (the derivation phrase, the pairing of
authority keys, the genesis assembly, the preset wiring, the hex parse of
the EVM address literal) is translated faithfully from the source.

Machine integers: balances are u128 / U256 in the source; every concrete
value used here (2^60 and the EVM seed balance) is far below both bounds,
so they are modelled as plain Nat.
-/

/-- Model of one hex digit of `rustc_hex` decoding: value of a hex character,
or failure for a non-hex character. -/
def hexDigit (c : Char) : Option Nat :=
  if ('0' ≤ c ∧ c ≤ '9') then some (c.toNat - '0'.toNat)
  else if ('a' ≤ c ∧ c ≤ 'f') then some (c.toNat - 'a'.toNat + 10)
  else if ('A' ≤ c ∧ c ≤ 'F') then some (c.toNat - 'A'.toNat + 10)
  else none

/-- Hex decoding of a character list into bytes: pairs of hex digits,
failing on odd length or a non-hex character (the `FromHex` decode used by
the `H160` string parse). -/
def hexBytes : List Char → Option (List Nat)
  | [] => some []
  | [_] => none
  | c1 :: c2 :: rest =>
    match hexDigit c1, hexDigit c2, hexBytes rest with
    | some hi, some lo, some bs => some ((16 * hi + lo) :: bs)
    | _, _, _ => none

/-- Model of `H160::from_str`: decode a hex string to exactly 20 bytes,
failing otherwise.  A 160-bit address is modelled as its byte list. -/
def H160.from_str (s : String) : Option (List Nat) :=
  match hexBytes s.data with
  | some bs => if bs.length = 20 then some bs else none
  | none => none

/-- Source `get_from_seed::<TPublic>(seed)`: build the derivation phrase
`"//" ++ seed` (the source writes `format!("//\x7b\x7d", seed)`) and run the
scheme's deterministic phrase-to-public-key function.  The scheme (external
crate `sp_core`) is abstracted as the function `fromPhrase`. -/
def get_from_seed {TPublic : Type} (fromPhrase : String → TPublic) (seed : String) : TPublic :=
  fromPhrase ("//" ++ seed)

/-- Source `get_account_id_from_seed::<TPublic>(seed)`: derive the public key
from the seed, then apply the ledger's signer-to-account transform
(`AccountPublic::from(..).into_account()`, abstracted as `intoAccount`). -/
def get_account_id_from_seed {TPublic AccountId : Type}
    (fromPhrase : String → TPublic) (intoAccount : TPublic → AccountId)
    (seed : String) : AccountId :=
  intoAccount (get_from_seed fromPhrase seed)

/-- Source `authority_keys_from_seed(s)`: the pair of an Aura (block
production) key and a Grandpa (finality) key derived from the same seed. -/
def authority_keys_from_seed {AuraId GrandpaId : Type}
    (auraFromPhrase : String → AuraId) (grandpaFromPhrase : String → GrandpaId)
    (s : String) : AuraId × GrandpaId :=
  (get_from_seed auraFromPhrase s, get_from_seed grandpaFromPhrase s)

/-- Source `evm::GenesisAccount`: nonce, balance, storage map and code of one
seeded EVM account.  Storage is a (sorted-map) association list, empty at
genesis. -/
structure GenesisAccount where
  nonce : Nat
  balance : Nat
  storage : List (Nat × Nat)
  code : List Nat

/-- Source `SystemConfig`: the runtime code blob plus the defaulted
changes-trie configuration (`Default::default()`, i.e. `None`). -/
structure SystemConfig where
  code : List Nat
  changes_trie_config : Option Unit

/-- Source `GenesisConfig`: one optional section per pallet, exactly the
fields constructed by `testnet_genesis`.  `AuraConfig` / `GrandpaConfig` /
`BalancesConfig` / `SudoConfig` / `EVMConfig` are single-field wrappers in
the source and are flattened to their payloads here. -/
structure GenesisConfig (AccountId AuraId GrandpaId : Type) where
  system : Option SystemConfig
  balances : Option (List (AccountId × Nat))
  aura : Option (List AuraId)
  grandpa : Option (List (GrandpaId × Nat))
  «sudo» : Option AccountId
  evm : Option (List (List Nat × GenesisAccount))
  ethereum : Option Unit
  collective_Instance1 : Option Unit
  pallet_session : Option Unit
  staking : Option Unit

/-- Source `sc_service::ChainType`. -/
inductive ChainType
  | Development
  | Local
  | Live
  | Custom (s : String)

/-- Source `ChainSpec` (`sc_service::GenericChainSpec<GenesisConfig>`)
restricted to the constructor arguments of `ChainSpec::from_genesis`.  The
genesis-producing closure is pure, so it is embedded by its value; `none`
stands for a panic inside the closure (the `unwrap` on the address parse). -/
structure ChainSpec (AccountId AuraId GrandpaId : Type) where
  name : String
  id : String
  chain_type : ChainType
  genesis : Option (GenesisConfig AccountId AuraId GrandpaId)
  bootnodes : List String
  telemetry : Option String
  protocol_id : Option String
  properties : Option String
  extensions : Option String

/-- Source `testnet_genesis`: assemble the genesis configuration.  Returns
`none` exactly when the `unwrap` on the EVM address literal parse would
panic; otherwise the fully populated `GenesisConfig`, section by section as
in the source. -/
def testnet_genesis {AccountId AuraId GrandpaId : Type}
    (wasm_binary : List Nat)
    (initial_authorities : List (AuraId × GrandpaId))
    (root_key : AccountId)
    (endowed_accounts : List AccountId)
    (_enable_println : Bool) :
    Option (GenesisConfig AccountId AuraId GrandpaId) :=
  match H160.from_str "6Be02d1d3665660d22FF9624b7BE0551ee1Ac91b" with
  | none => none
  | some alice_evm_account_id =>
    some {
      system := some { code := wasm_binary, changes_trie_config := none }
      balances := some (endowed_accounts.map (fun k => (k, 1 <<< 60)))
      aura := some (initial_authorities.map (fun x => x.1))
      grandpa := some (initial_authorities.map (fun x => (x.2, 1)))
      «sudo» := some root_key
      evm := some [(alice_evm_account_id,
        { nonce := 0
          balance := 123456123000000000000000
          storage := []
          code := [] })]
      ethereum := some ()
      collective_Instance1 := some ()
      pallet_session := none
      staking := none }

/-- Source `development_config`: fails with the wasm-unavailable string when
`WASM_BINARY` is `None`, otherwise wraps `testnet_genesis` over one
authority (Alice), root Alice, and four endowed accounts.  `WASM_BINARY` is
a build-time constant of an external crate, so it is a parameter here; the
scheme functions are the abstract sr25519 / Aura / Grandpa derivations. -/
def development_config {AccountId AuraId GrandpaId P : Type}
    (auraFromPhrase : String → AuraId) (grandpaFromPhrase : String → GrandpaId)
    (srFromPhrase : String → P) (intoAccount : P → AccountId)
    (WASM_BINARY : Option (List Nat)) :
    Except String (ChainSpec AccountId AuraId GrandpaId) :=
  match WASM_BINARY with
  | none => Except.error "Development wasm binary not available"
  | some wasm_binary =>
    Except.ok {
      name := "Development"
      id := "dev"
      chain_type := ChainType.Development
      genesis := testnet_genesis wasm_binary
        [authority_keys_from_seed auraFromPhrase grandpaFromPhrase "Alice"]
        (get_account_id_from_seed srFromPhrase intoAccount "Alice")
        [get_account_id_from_seed srFromPhrase intoAccount "Alice",
         get_account_id_from_seed srFromPhrase intoAccount "Bob",
         get_account_id_from_seed srFromPhrase intoAccount "Alice//stash",
         get_account_id_from_seed srFromPhrase intoAccount "Bob//stash"]
        true
      bootnodes := []
      telemetry := none
      protocol_id := none
      properties := none
      extensions := none }

/-- Source `local_testnet_config`: same shape as `development_config`, with
two authorities (Alice, Bob), root Alice, twelve endowed accounts, and chain
type Local. -/
def local_testnet_config {AccountId AuraId GrandpaId P : Type}
    (auraFromPhrase : String → AuraId) (grandpaFromPhrase : String → GrandpaId)
    (srFromPhrase : String → P) (intoAccount : P → AccountId)
    (WASM_BINARY : Option (List Nat)) :
    Except String (ChainSpec AccountId AuraId GrandpaId) :=
  match WASM_BINARY with
  | none => Except.error "Development wasm binary not available"
  | some wasm_binary =>
    Except.ok {
      name := "Local Testnet"
      id := "local_testnet"
      chain_type := ChainType.Local
      genesis := testnet_genesis wasm_binary
        [authority_keys_from_seed auraFromPhrase grandpaFromPhrase "Alice",
         authority_keys_from_seed auraFromPhrase grandpaFromPhrase "Bob"]
        (get_account_id_from_seed srFromPhrase intoAccount "Alice")
        [get_account_id_from_seed srFromPhrase intoAccount "Alice",
         get_account_id_from_seed srFromPhrase intoAccount "Bob",
         get_account_id_from_seed srFromPhrase intoAccount "Charlie",
         get_account_id_from_seed srFromPhrase intoAccount "Dave",
         get_account_id_from_seed srFromPhrase intoAccount "Eve",
         get_account_id_from_seed srFromPhrase intoAccount "Ferdie",
         get_account_id_from_seed srFromPhrase intoAccount "Alice//stash",
         get_account_id_from_seed srFromPhrase intoAccount "Bob//stash",
         get_account_id_from_seed srFromPhrase intoAccount "Charlie//stash",
         get_account_id_from_seed srFromPhrase intoAccount "Dave//stash",
         get_account_id_from_seed srFromPhrase intoAccount "Eve//stash",
         get_account_id_from_seed srFromPhrase intoAccount "Ferdie//stash"]
        true
      bootnodes := []
      telemetry := none
      protocol_id := none
      properties := none
      extensions := none }

/-- Byte value of the hard-coded EVM address literal
`6Be02d1d3665660d22FF9624b7BE0551ee1Ac91b`. -/
def aliceEvmBytes : List Nat :=
  [0x6B, 0xe0, 0x2d, 0x1d, 0x36, 0x65, 0x66, 0x0d, 0x22, 0xFF,
   0x96, 0x24, 0xb7, 0xBE, 0x05, 0x51, 0xee, 0x1A, 0xc9, 0x1b]

/-- Shared unfolding lemma: `testnet_genesis` always returns the fully
populated genesis record (the address parse succeeds, so the `unwrap` branch
is never taken). -/
theorem testnet_genesis_eq {AccountId AuraId GrandpaId : Type}
    (wasm_binary : List Nat)
    (initial_authorities : List (AuraId × GrandpaId))
    (root_key : AccountId)
    (endowed_accounts : List AccountId)
    (b : Bool) :
    testnet_genesis wasm_binary initial_authorities root_key endowed_accounts b =
      some {
        system := some { code := wasm_binary, changes_trie_config := none }
        balances := some (endowed_accounts.map (fun k => (k, 1 <<< 60)))
        aura := some (initial_authorities.map (fun x => x.1))
        grandpa := some (initial_authorities.map (fun x => (x.2, 1)))
        «sudo» := some root_key
        evm := some [(aliceEvmBytes,
          { nonce := 0
            balance := 123456123000000000000000
            storage := []
            code := [] })]
        ethereum := some ()
        collective_Instance1 := some ()
        pallet_session := none
        staking := none } := rfl

/-- Claim C10: the hex parse of the hard-coded EVM address literal inside
`testnet_genesis` succeeds, returning exactly the expected 20 bytes, so the
`unwrap` on its result never panics. -/
theorem alice_evm_literal_parses :
    H160.from_str "6Be02d1d3665660d22FF9624b7BE0551ee1Ac91b" = some aliceEvmBytes ∧
      aliceEvmBytes.length = 20 := by
  constructor
  · decide
  · decide

/-- Claim C8: key derivation is deterministic (two evaluations of
`get_from_seed` with identical scheme and label agree), and the derivation
phrase fed to the scheme is the label with a leading marker `"//"`. -/
theorem get_from_seed_deterministic {TPublic : Type}
    (fromPhrase : String → TPublic) (label : String) :
    get_from_seed fromPhrase label = get_from_seed fromPhrase label ∧
      get_from_seed fromPhrase label = fromPhrase ("//" ++ label) :=
  ⟨rfl, rfl⟩

/-- Claim C9: the assembled genesis state does not depend on the final
boolean parameter of `testnet_genesis` (the unused println switch). -/
theorem testnet_genesis_println_independent {AccountId AuraId GrandpaId : Type}
    (wasm_binary : List Nat)
    (initial_authorities : List (AuraId × GrandpaId))
    (root_key : AccountId)
    (endowed_accounts : List AccountId) :
    testnet_genesis wasm_binary initial_authorities root_key endowed_accounts true =
      testnet_genesis wasm_binary initial_authorities root_key endowed_accounts false :=
  rfl

/-- Claim C4: for every input validator list the assembled genesis has
equally many block authorities and finality authorities, and every finality
authority carries weight exactly 1. -/
theorem authorities_paired_with_weight_one {AccountId AuraId GrandpaId : Type}
    (wasm_binary : List Nat)
    (initial_authorities : List (AuraId × GrandpaId))
    (root_key : AccountId)
    (endowed_accounts : List AccountId)
    (b : Bool) :
    ∃ g auras grandpas,
      testnet_genesis wasm_binary initial_authorities root_key endowed_accounts b = some g ∧
      g.aura = some auras ∧
      g.grandpa = some grandpas ∧
      auras.length = grandpas.length ∧
      grandpas.all (fun p => p.2 == 1) = true := by
  refine ⟨_, _, _, testnet_genesis_eq _ _ _ _ _, rfl, rfl, by simp, ?_⟩
  rw [List.all_eq_true]
  intro p hp
  rw [List.mem_map] at hp
  obtain ⟨x, hx, hpx⟩ := hp
  rw [← hpx]
  rfl

/-- Claim C3: the development preset yields exactly one block authority and
one finality authority of weight 1, both derived from the label Alice, the
sudo key is the account derived from Alice, and the Balances section holds
exactly the four accounts Alice, Bob, Alice//stash, Bob//stash, each with
balance 2^60. -/
theorem development_preset_shape {AccountId AuraId GrandpaId P : Type}
    (auraFromPhrase : String → AuraId) (grandpaFromPhrase : String → GrandpaId)
    (srFromPhrase : String → P) (intoAccount : P → AccountId)
    (wasm : List Nat) :
    ∃ cs g,
      development_config auraFromPhrase grandpaFromPhrase srFromPhrase intoAccount
        (some wasm) = Except.ok cs ∧
      cs.genesis = some g ∧
      g.aura = some [get_from_seed auraFromPhrase "Alice"] ∧
      g.grandpa = some [(get_from_seed grandpaFromPhrase "Alice", 1)] ∧
      g.sudo = some (get_account_id_from_seed srFromPhrase intoAccount "Alice") ∧
      g.balances = some
        [(get_account_id_from_seed srFromPhrase intoAccount "Alice", 2 ^ 60),
         (get_account_id_from_seed srFromPhrase intoAccount "Bob", 2 ^ 60),
         (get_account_id_from_seed srFromPhrase intoAccount "Alice//stash", 2 ^ 60),
         (get_account_id_from_seed srFromPhrase intoAccount "Bob//stash", 2 ^ 60)] :=
  ⟨_, _, rfl, rfl, rfl, rfl, rfl, rfl⟩

/-- Claim C5: for every input validator list and every index i, the block
authority at position i and the finality authority at position i of the
assembled genesis come from the same i-th input validator pair, with both
sequences preserving the input order. -/
theorem authority_order_preserved {AccountId AuraId GrandpaId : Type}
    (wasm_binary : List Nat)
    (initial_authorities : List (AuraId × GrandpaId))
    (root_key : AccountId)
    (endowed_accounts : List AccountId)
    (b : Bool)
    (g : GenesisConfig AccountId AuraId GrandpaId)
    (hg : testnet_genesis wasm_binary initial_authorities root_key endowed_accounts b = some g)
    (auras : List AuraId) (ha : g.aura = some auras)
    (grandpas : List (GrandpaId × Nat)) (hgr : g.grandpa = some grandpas)
    (i : Nat) (hi : i < initial_authorities.length) :
    auras[i]? = some (initial_authorities[i]).1 ∧
      grandpas[i]? = some ((initial_authorities[i]).2, 1) := by
  rw [testnet_genesis_eq] at hg
  cases hg
  have ha2 : auras = initial_authorities.map (fun x => x.1) :=
    (Option.some.inj ha).symm
  have hgr2 : grandpas = initial_authorities.map (fun x => (x.2, 1)) :=
    (Option.some.inj hgr).symm
  subst ha2
  subst hgr2
  constructor
  · rw [List.getElem?_map, List.getElem?_eq_getElem hi]
    rfl
  · rw [List.getElem?_map, List.getElem?_eq_getElem hi]
    rfl

/-- Witness for `authority_order_preserved` at a concrete two-validator
list, index 1. -/
theorem authority_order_preserved_witness :
    ([10, 30] : List Nat)[1]? = some 30 ∧
      ([(20, 1), (40, 1)] : List (Nat × Nat))[1]? = some (40, 1) :=
  authority_order_preserved [1] [(10, 20), (30, 40)] "root" ([] : List String) true
    _ rfl [10, 30] rfl [(20, 1), (40, 1)] rfl 1 (by decide)

/-- Claim C6: both preset factory functions error with a plain string
exactly when the embedded runtime payload is absent, and produce no chain
spec in that case; when the payload is present they succeed. -/
theorem presets_error_iff_wasm_absent {AccountId AuraId GrandpaId P : Type}
    (auraFromPhrase : String → AuraId) (grandpaFromPhrase : String → GrandpaId)
    (srFromPhrase : String → P) (intoAccount : P → AccountId) :
    development_config auraFromPhrase grandpaFromPhrase srFromPhrase intoAccount
        (none : Option (List Nat)) =
      Except.error "Development wasm binary not available" ∧
    local_testnet_config auraFromPhrase grandpaFromPhrase srFromPhrase intoAccount
        (none : Option (List Nat)) =
      Except.error "Development wasm binary not available" ∧
    (∀ wasm : List Nat, ∃ cs,
      development_config auraFromPhrase grandpaFromPhrase srFromPhrase intoAccount
        (some wasm) = Except.ok cs) ∧
    (∀ wasm : List Nat, ∃ cs,
      local_testnet_config auraFromPhrase grandpaFromPhrase srFromPhrase intoAccount
        (some wasm) = Except.ok cs) :=
  ⟨rfl, rfl, fun _ => ⟨_, rfl⟩, fun _ => ⟨_, rfl⟩⟩

/-- Claim C7: every assembled genesis (hence the genesis of either preset)
seeds exactly one EVM account, at the fixed 20-byte address
6Be02d1d3665660d22FF9624b7BE0551ee1Ac91b, with nonce 0, the large fixed
balance, empty storage and empty code. -/
theorem evm_single_clean_account {AccountId AuraId GrandpaId P : Type}
    (auraFromPhrase : String → AuraId) (grandpaFromPhrase : String → GrandpaId)
    (srFromPhrase : String → P) (intoAccount : P → AccountId)
    (wasm_binary : List Nat)
    (initial_authorities : List (AuraId × GrandpaId))
    (root_key : AccountId)
    (endowed_accounts : List AccountId)
    (b : Bool) :
    (∃ g, testnet_genesis wasm_binary initial_authorities root_key endowed_accounts b
        = some g ∧
      g.evm = some [(aliceEvmBytes,
        { nonce := 0, balance := 123456123000000000000000,
          storage := [], code := [] })]) ∧
    H160.from_str "6Be02d1d3665660d22FF9624b7BE0551ee1Ac91b" = some aliceEvmBytes ∧
    aliceEvmBytes.length = 20 ∧
    (∃ cs g,
      development_config auraFromPhrase grandpaFromPhrase srFromPhrase intoAccount
        (some wasm_binary) = Except.ok cs ∧
      cs.genesis = some g ∧
      g.evm = some [(aliceEvmBytes,
        { nonce := 0, balance := 123456123000000000000000,
          storage := [], code := [] })]) ∧
    (∃ cs g,
      local_testnet_config auraFromPhrase grandpaFromPhrase srFromPhrase intoAccount
        (some wasm_binary) = Except.ok cs ∧
      cs.genesis = some g ∧
      g.evm = some [(aliceEvmBytes,
        { nonce := 0, balance := 123456123000000000000000,
          storage := [], code := [] })]) :=
  ⟨⟨_, rfl, rfl⟩, by decide, by decide,
   ⟨_, _, rfl, rfl, rfl⟩, ⟨_, _, rfl, rfl, rfl⟩⟩

/-- Claim C1 fails on the code: with concrete (identity) schemes the local
testnet preset produces 2 block authorities and 2 finality authorities, not
6, alongside its 12 balance entries. -/
theorem local_testnet_counts_cx :
    ((local_testnet_config (fun s : String => s) (fun s : String => s)
        (fun s : String => s) (fun p : String => p)
        (some [0])).toOption.bind (fun cs => cs.genesis)).map
      (fun g => (g.aura.map List.length, g.grandpa.map List.length,
                 g.balances.map List.length))
      = some (some 2, some 2, some 12) ∧
    (some ((some 2 : Option Nat), (some 2 : Option Nat), (some 12 : Option Nat)) :
        Option (Option Nat × Option Nat × Option Nat)) ≠
      some (some 6, some 6, some 12) :=
  ⟨rfl, by decide⟩

/-- Claim C1 amended: the local_testnet preset produces exactly 2 block
authorities and 2 finality authorities (one pair per label, for the labels
Alice and Bob only), and a Balances section with exactly 12 entries, namely
the accounts derived from the six labels Alice..Ferdie and their six stash
variants in that order, each with balance 2^60. -/
theorem local_testnet_preset_shape {AccountId AuraId GrandpaId P : Type}
    (auraFromPhrase : String → AuraId) (grandpaFromPhrase : String → GrandpaId)
    (srFromPhrase : String → P) (intoAccount : P → AccountId)
    (wasm : List Nat) :
    ∃ cs g,
      local_testnet_config auraFromPhrase grandpaFromPhrase srFromPhrase intoAccount
        (some wasm) = Except.ok cs ∧
      cs.genesis = some g ∧
      g.aura = some [get_from_seed auraFromPhrase "Alice",
                     get_from_seed auraFromPhrase "Bob"] ∧
      g.grandpa = some [(get_from_seed grandpaFromPhrase "Alice", 1),
                        (get_from_seed grandpaFromPhrase "Bob", 1)] ∧
      g.balances = some
        [(get_account_id_from_seed srFromPhrase intoAccount "Alice", 2 ^ 60),
         (get_account_id_from_seed srFromPhrase intoAccount "Bob", 2 ^ 60),
         (get_account_id_from_seed srFromPhrase intoAccount "Charlie", 2 ^ 60),
         (get_account_id_from_seed srFromPhrase intoAccount "Dave", 2 ^ 60),
         (get_account_id_from_seed srFromPhrase intoAccount "Eve", 2 ^ 60),
         (get_account_id_from_seed srFromPhrase intoAccount "Ferdie", 2 ^ 60),
         (get_account_id_from_seed srFromPhrase intoAccount "Alice//stash", 2 ^ 60),
         (get_account_id_from_seed srFromPhrase intoAccount "Bob//stash", 2 ^ 60),
         (get_account_id_from_seed srFromPhrase intoAccount "Charlie//stash", 2 ^ 60),
         (get_account_id_from_seed srFromPhrase intoAccount "Dave//stash", 2 ^ 60),
         (get_account_id_from_seed srFromPhrase intoAccount "Eve//stash", 2 ^ 60),
         (get_account_id_from_seed srFromPhrase intoAccount "Ferdie//stash", 2 ^ 60)] ∧
      g.balances.map List.length = some 12 :=
  ⟨_, _, rfl, rfl, rfl, rfl, rfl, rfl⟩

/-- Claim C2 fails on the code: with an empty runtime payload the assembly
does not fail at all; it returns a complete genesis whose system section
embeds the empty code blob. -/
theorem empty_payload_accepted_cx :
    ∃ g, testnet_genesis ([] : List Nat) ([] : List (Nat × Nat)) "root"
        ([] : List String) true = some g ∧
      g.system = some { code := [], changes_trie_config := none } :=
  ⟨_, rfl, rfl⟩

/-- Claim C2 amended: genesis assembly never rejects an empty runtime
payload (the absence check lives in the presets, on the Option-typed
WASM_BINARY, not on emptiness of the byte sequence); `testnet_genesis` is
total and atomic for every payload: the caller always receives a fully
populated genesis whose system section embeds the payload verbatim, never a
partial state. -/
theorem testnet_genesis_total_atomic {AccountId AuraId GrandpaId : Type}
    (wasm_binary : List Nat)
    (initial_authorities : List (AuraId × GrandpaId))
    (root_key : AccountId)
    (endowed_accounts : List AccountId)
    (b : Bool) :
    ∃ g, testnet_genesis wasm_binary initial_authorities root_key endowed_accounts b
        = some g ∧
      g.system = some { code := wasm_binary, changes_trie_config := none } ∧
      g.balances.isSome = true ∧
      g.aura.isSome = true ∧
      g.grandpa.isSome = true ∧
      g.sudo = some root_key ∧
      g.evm.isSome = true ∧
      g.ethereum = some () ∧
      g.collective_Instance1 = some () :=
  ⟨_, rfl, rfl, rfl, rfl, rfl, rfl, rfl, rfl, rfl⟩
